import Mathlib

/-!
Shallow embedding of the WePower IoT Home Assistant integration
(`custom_components/wepower_iot`), covering the packet parser
(`packet_parser.py`), the BLE coordinator (`ble_coordinator.py`), the
device manager (`device_management.py`) and the config-flow device check
(`ble_config_flow.py`).

Bytes are modelled as `Nat` (Python `bytes` elements are in `[0, 255]`;
where a statement depends on that range it carries an explicit
hypothesis).  Python exceptions are modelled with `Except PyError`;
functions wrapped in a blanket `try/except` return `Option` at the top
level.  Python hex-string round-trips (`bytes.hex()` followed by
`int(s, 16)` / `bytes.fromhex`) are modelled by their arithmetic value:
`int(b.hex(), 16)` is the big-endian value of the bytes and
`bytes.fromhex(b.hex()) = b`.
-/

set_option autoImplicit false

deriving instance DecidableEq for Except

/-- Python exception kinds raised by the embedded code paths. -/
inductive PyError where
  /-- `ValueError: Packet data must be at least 16 bytes` -/
  | tooShort
  /-- `ValueError: Encrypted data must be 16 bytes` -/
  | wrongSize
  /-- `AttributeError` from dereferencing a `None` attribute -/
  | attributeError
  /-- `ValueError` from `list.remove` on an absent element -/
  | valueError
  deriving Repr, DecidableEq

/-- `packet_parser.COMPANY_ID = 0x5750`. -/
def COMPANY_ID : Nat := 0x5750

/-- `packet_parser.PACKET_LENGTH = 16`. -/
def PACKET_LENGTH : Nat := 16

/-- `packet_parser.ENCRYPTED_DATA_SIZE = 16`. -/
def ENCRYPTED_DATA_SIZE : Nat := 16

/-- Modelled from the spec: the integration's `const.py` (which defines
`BLE_COMPANY_ID`) is not among the provided sources; the spec fixes the
manufacturer identifier as `0x5750`, matching the source comments
`# WePower manufacturer ID (0x5750)` in `ble_coordinator.py`. -/
def BLE_COMPANY_ID : Nat := 0x5750

/-- `WePowerPacketFlags`: the four bitfields decoded from the flags byte. -/
structure WePowerPacketFlags where
  encrypt_status : Nat
  self_external_power : Nat
  event_counter_lsb : Nat
  payload_length : Nat
  deriving Repr, DecidableEq

/-- `WePowerPacketFlags.__init__`: fixed bit positions of the flags byte. -/
def mkWePowerPacketFlags (flags_byte : Nat) : WePowerPacketFlags :=
  { encrypt_status := flags_byte &&& 0x01
  , self_external_power := (flags_byte >>> 1) &&& 0x01
  , event_counter_lsb := (flags_byte >>> 2) &&& 0x03
  , payload_length := (flags_byte >>> 4) &&& 0x0F }

/-- `WePowerEncryptedData`: the sliced 16-byte inner structure. -/
structure WePowerEncryptedData where
  data_bytes : List Nat
  src_id : List Nat
  nwk_id : List Nat
  fw_version : Nat
  sensor_type : List Nat
  payload : List Nat
  deriving Repr, DecidableEq

/-- `WePowerEncryptedData.__init__`: raises `ValueError` unless the data is
exactly `ENCRYPTED_DATA_SIZE` (16) bytes, then slices
`src_id = data[0:3]`, `nwk_id = data[3:5]`, `fw_version = data[5]`,
`sensor_type = data[6:8]`, `payload = data[8:16]`. -/
def mkWePowerEncryptedData (data : List Nat) : Except PyError WePowerEncryptedData :=
  if data.length ≠ ENCRYPTED_DATA_SIZE then .error .wrongSize
  else .ok
    { data_bytes := data
    , src_id := data.take 3
    , nwk_id := (data.drop 3).take 2
    , fw_version := data.getD 5 0
    , sensor_type := (data.drop 6).take 2
    , payload := (data.drop 8).take 8 }

/-- `WePowerPacket`: `flags` and `crc` are `Option`s because `__init__`
assigns `None` to both. -/
structure WePowerPacket where
  raw_data : List Nat
  company_id : Nat
  flags : Option WePowerPacketFlags
  encrypted_data : WePowerEncryptedData
  crc : Option Nat
  deriving Repr, DecidableEq

/-- `WePowerPacket.__init__`: raises `ValueError` when the data is shorter
than `PACKET_LENGTH` (16) bytes, then sets `company_id = COMPANY_ID`,
`flags = None`, `encrypted_data = WePowerEncryptedData(raw_data)` (which
itself raises unless the length is exactly 16) and `crc = None`. -/
def mkWePowerPacket (raw_data : List Nat) : Except PyError WePowerPacket :=
  if raw_data.length < PACKET_LENGTH then .error .tooShort
  else
    match mkWePowerEncryptedData raw_data with
    | .error e => .error e
    | .ok ed => .ok
        { raw_data := raw_data
        , company_id := COMPANY_ID
        , flags := none
        , encrypted_data := ed
        , crc := none }

/-- `WePowerPacket.is_valid_company_id`. -/
def is_valid_company_id (p : WePowerPacket) : Bool :=
  p.company_id == COMPANY_ID

/-- `WePowerPacket.validate_crc`: the body is a bare `return True` (the
comment defers validation to the BLE coordinator). -/
def validate_crc (_p : WePowerPacket) : Bool :=
  true

/-- One iteration of the inner bit loop of `_calculate_crc8`. -/
def crc8Step (crc : Nat) : Nat :=
  if crc &&& 0x80 ≠ 0 then ((crc <<< 1) ^^^ 0x07) &&& 0xFF
  else (crc <<< 1) &&& 0xFF

/-- The 8-fold bit loop of `_calculate_crc8`. -/
def crc8Bits : Nat → Nat → Nat
  | crc, 0 => crc
  | crc, k + 1 => crc8Bits (crc8Step crc) k

/-- `WePowerPacket._calculate_crc8`: CRC-8, polynomial 0x07, initial value
0x00, no reflection. -/
def calculate_crc8 (data : List Nat) : Nat :=
  data.foldl (fun crc byte => crc8Bits (crc ^^^ byte) 8) 0x00

/-- Big-endian byte-list value: `int(b.hex(), 16)` for bytes `b`. -/
def beBytesToNat (bs : List Nat) : Nat :=
  bs.foldl (fun acc b => acc * 256 + b) 0

/-- Little-endian byte-list value: `struct.unpack` with format `<I` after
zero padding. -/
def leBytesToNat (bs : List Nat) : Nat :=
  bs.foldr (fun b acc => b + 256 * acc) 0

/-- The dictionary built by `WePowerPacket.decrypt_payload`.  The Python
dict stores `src_id`/`nwk_id`/`sensor_type`/`payload` as upper-case hex
strings; they are modelled by the underlying byte lists (the hex
round-trip is injective on bytes). -/
structure DecryptedDict where
  src_id : List Nat
  nwk_id : List Nat
  fw_version : Nat
  sensor_type : List Nat
  payload : List Nat
  event_counter_lsb : Nat
  payload_length : Nat
  encrypt_status : Nat
  power_status : Nat
  deriving Repr, DecidableEq

/-- `WePowerPacket.decrypt_payload`.  The AES-128-ECB single-block
decryption performed by the `cryptography` library is abstracted as the
function argument `aesDecrypt key block`; every other step follows the
source: if `self.flags.encrypt_status == 1` the stored bytes are used
unchanged, otherwise the cipher is applied; the result is re-parsed with
`WePowerEncryptedData` and packed into a dict together with the flag
fields.  `self.flags` is `Option`-valued: when it is `none` the attribute
access `self.flags.encrypt_status` raises `AttributeError`, which the
method's blanket `except` turns into `None`; a `ValueError` from
re-parsing is caught the same way. -/
def decrypt_payload (aesDecrypt : List Nat → List Nat → List Nat)
    (flags : Option WePowerPacketFlags) (encrypted_data : WePowerEncryptedData)
    (decryption_key : List Nat) : Option DecryptedDict :=
  match flags with
  | none => none
  | some f =>
    let decrypted_data :=
      if f.encrypt_status = 1 then encrypted_data.data_bytes
      else aesDecrypt decryption_key encrypted_data.data_bytes
    match mkWePowerEncryptedData decrypted_data with
    | .error _ => none
    | .ok dp => some
        { src_id := dp.src_id
        , nwk_id := dp.nwk_id
        , fw_version := dp.fw_version
        , sensor_type := dp.sensor_type
        , payload := dp.payload
        , event_counter_lsb := f.event_counter_lsb
        , payload_length := f.payload_length
        , encrypt_status := f.encrypt_status
        , power_status := f.self_external_power }

/-- The dictionary built by `WePowerPacket.parse_sensor_data`: the common
fields plus the leak-sensor fields, which are only present for sensor
type 4 with a payload of at least 4 bytes. -/
structure SensorData where
  sensor_type : Nat
  event_counter_lsb : Nat
  payload_length : Nat
  encrypt_status : Nat
  power_status : Nat
  event_counter : Option Nat
  sensor_event : Option Nat
  leak_detected : Option Bool
  deriving Repr, DecidableEq

/-- `WePowerPacket.parse_sensor_data`: `sensor_type` is recovered with
`int(decrypted_data['sensor_type'], 16)` from the hex string of bytes
`data[6:8]`, i.e. as the BIG-endian value of those two bytes; `payload`
is recovered with `bytes.fromhex`, i.e. unchanged.  Only sensor type 4
(leak) gets extra fields: `event_counter` is the 24-bit little-endian
value of `payload[0:3]` zero-padded to 4 bytes, `sensor_event` is
`payload[3]`, and `leak_detected` is `sensor_event == 1`. -/
def parse_sensor_data (d : DecryptedDict) : SensorData :=
  let sensor_type := beBytesToNat d.sensor_type
  let payload := d.payload
  let base : SensorData :=
    { sensor_type := sensor_type
    , event_counter_lsb := d.event_counter_lsb
    , payload_length := d.payload_length
    , encrypt_status := d.encrypt_status
    , power_status := d.power_status
    , event_counter := none
    , sensor_event := none
    , leak_detected := none }
  if sensor_type = 4 then
    if 4 ≤ payload.length then
      { base with
        event_counter := some (leBytesToNat (payload.take 3))
      , sensor_event := some (payload.getD 3 0)
      , leak_detected := some (payload.getD 3 0 == 1) }
    else base
  else base

/-- The dictionary returned by `parse_wepower_packet` on success. -/
structure ParsedPacket where
  company_id : Nat
  flags : WePowerPacketFlags
  crc : Option Nat
  decrypted_data : Option DecryptedDict
  sensor_data : Option SensorData
  deriving Repr, DecidableEq

/-- `parse_wepower_packet`: constructs a `WePowerPacket`, checks the
company id and the CRC, builds the result dict (this dereferences
`packet.flags.encrypt_status`, raising `AttributeError` when `flags` is
`None`), and, when a non-empty decryption key was supplied, attaches the
decrypted data and the parsed sensor data.  The whole body sits in a
blanket `try/except` returning `None`, so every raised error becomes
`none`. -/
def parse_wepower_packet (aesDecrypt : List Nat → List Nat → List Nat)
    (manufacturer_data : List Nat) (decryption_key : Option (List Nat)) :
    Option ParsedPacket :=
  match mkWePowerPacket manufacturer_data with
  | .error _ => none
  | .ok packet =>
    if ¬ is_valid_company_id packet then none
    else if ¬ validate_crc packet then none
    else
      match packet.flags with
      | none => none
      | some f =>
        let result : ParsedPacket :=
          { company_id := packet.company_id
          , flags := f
          , crc := packet.crc
          , decrypted_data := none
          , sensor_data := none }
        match decryption_key with
        | none => some result
        | some key =>
          if key = [] then some result
          else
            match decrypt_payload aesDecrypt packet.flags packet.encrypted_data key with
            | none => some result
            | some dd => some
                { result with
                  decrypted_data := some dd
                , sensor_data := some (parse_sensor_data dd) }

/-- The value returned by
`WePowerIoTBluetoothProcessorCoordinator._parse_wepower_manufacturer_data`:
either the empty dict `{}` (every failure path) or the populated result
dict. -/
inductive MfrParseResult where
  | empty
  | parsed (company_id : Nat) (flags : Nat) (crc : Nat)
      (decrypted_data : Option DecryptedDict) (sensor_data : Option SensorData)
      (leak_detected : Option Bool) (event_counter : Option Nat)
      (sensor_event : Option Nat)
  deriving Repr, DecidableEq

/-- The coordinator's pre-parse length gate, `if len(data) < 18` in
`_parse_wepower_manufacturer_data` (the same test appears twice in a row
in the source). -/
def manufacturer_length_gate (data : List Nat) : Bool :=
  data.length < 18

/-- `_parse_wepower_manufacturer_data`: rejects inputs shorter than 18
bytes at the length gate, slices `flags = data[0]`, the 16 bytes
`data[1:17]` and `crc = data[17]` (the CRC byte is stored in the result
but never compared with anything), then hands the FULL input `data` to
`parse_wepower_packet` together with the configured key; an empty parser
result yields `{}`, otherwise the result dict copies the parsed fields.
The configured decryption key (`bytes.fromhex` of the config entry) is
taken as an `Option (List Nat)` parameter. -/
def parse_wepower_manufacturer_data (aesDecrypt : List Nat → List Nat → List Nat)
    (data : List Nat) (decryption_key : Option (List Nat)) : MfrParseResult :=
  if manufacturer_length_gate data then .empty
  else
    let flags := data.getD 0 0
    let crc := data.getD 17 0
    match parse_wepower_packet aesDecrypt data decryption_key with
    | none => .empty
    | some pp =>
      let sd := pp.sensor_data
      .parsed 0x5750 flags crc pp.decrypted_data sd
        (sd.bind (fun s => s.leak_detected))
        (sd.bind (fun s => s.event_counter))
        (sd.bind (fun s => s.sensor_event))

/-- The sensor-type → device-type table of
`_parse_advertisement_data` (lines 161-198): codes 1..9 name a device
type, anything else leaves the initial value `"unknown"`. -/
def device_type_of (sensor_type : Nat) : String :=
  if sensor_type = 1 then "temperature_sensor"
  else if sensor_type = 2 then "humidity_sensor"
  else if sensor_type = 3 then "pressure_sensor"
  else if sensor_type = 4 then "leak_sensor"
  else if sensor_type = 5 then "vibration_sensor"
  else if sensor_type = 6 then "on_off_switch"
  else if sensor_type = 7 then "light_switch"
  else if sensor_type = 8 then "door_switch"
  else if sensor_type = 9 then "toggle_switch"
  else "unknown"

/-- The fields of the dict built by `_parse_advertisement_data` that the
coordinator state machine depends on: the observation timestamp
(`datetime.now().isoformat()`, modelled as a `Nat` clock), the device
type, and the sensor data merged in from the manufacturer-data parse. -/
structure AdvData where
  timestamp : Nat
  device_type : String
  sensor_data : Option SensorData
  deriving Repr, DecidableEq

/-- `_parse_advertisement_data`: builds the base dict with
`timestamp = now` and `device_type = "unknown"`, merges in the result of
`_parse_wepower_manufacturer_data` for every manufacturer entry whose id
is `BLE_COMPANY_ID` (a failed parse contributes nothing), then rewrites
`device_type` through the sensor-type table when sensor data is
present. -/
def parse_advertisement_data (aesDecrypt : List Nat → List Nat → List Nat)
    (now : Nat) (manufacturer_entries : List (Nat × List Nat))
    (decryption_key : Option (List Nat)) : AdvData :=
  let init : AdvData := { timestamp := now, device_type := "unknown", sensor_data := none }
  let merged := manufacturer_entries.foldl (fun acc e =>
    if e.1 == BLE_COMPANY_ID then
      match parse_wepower_manufacturer_data aesDecrypt e.2 decryption_key with
      | .empty => acc
      | .parsed _ _ _ _ sd _ _ _ => { acc with sensor_data := sd }
    else acc) init
  match merged.sensor_data with
  | some s => { merged with device_type := device_type_of s.sensor_type }
  | none => merged

/-- The coordinator state the availability logic touches: `self.data`
(`none` models the empty dict `{}`) and `self.last_update_success`. -/
structure CoordinatorState where
  data : Option AdvData
  last_update_success : Bool
  deriving Repr, DecidableEq

/-- `_async_handle_bluetooth_event`: on a successful parse stores the
parsed dict and sets `last_update_success = True`; the `except` branch
only sets `last_update_success = False`, leaving `self.data` alone. -/
def async_handle_bluetooth_event (st : CoordinatorState)
    (parseResult : Except PyError AdvData) : CoordinatorState :=
  match parseResult with
  | .ok parsed => { data := some parsed, last_update_success := true }
  | .error _ => { st with last_update_success := false }

/-- `_async_schedule_poll`: ignores its `datetime` argument entirely;
`if self.data:` (dict truthiness) decides availability. -/
def async_schedule_poll (st : CoordinatorState) (_now : Nat) : CoordinatorState :=
  if st.data.isSome then { st with last_update_success := true }
  else { st with last_update_success := false }

/-- `async_shutdown`: clears the data dict and marks the update failed. -/
def async_shutdown (_st : CoordinatorState) : CoordinatorState :=
  { data := none, last_update_success := false }

/-- `FALLBACK_POLL_INTERVAL = timedelta(seconds=60)`: the cadence at which
`_async_schedule_poll` is invoked. -/
def FALLBACK_POLL_INTERVAL : Nat := 60

/-- The advertisement fields the discovery checks read: the device name
and the manufacturer-data map (id, bytes). -/
structure BluetoothServiceInfo where
  name : Option String
  manufacturer_data : List (Nat × List Nat)

/-- Whether `pat` is a prefix of the character list `s`. -/
def charsHasPrefix : List Char → List Char → Bool
  | _, [] => true
  | [], _ :: _ => false
  | c :: cs, p :: ps => c == p && charsHasPrefix cs ps

/-- Whether `pat` occurs as a contiguous run inside `s`. -/
def charsContains : List Char → List Char → Bool
  | [], pat => charsHasPrefix [] pat
  | s@(_ :: rest), pat => charsHasPrefix s pat || charsContains rest pat

/-- Python's substring test `pat in s`. -/
def str_contains (s pat : String) : Bool :=
  charsContains s.data pat.data

/-- Python's `str.upper()`, character by character (the patterns below
are ASCII, where `Char.toUpper` agrees with Python). -/
def str_upper (s : String) : String :=
  String.mk (s.data.map Char.toUpper)

/-- The name fallback shared by both discovery checks:
`any(pattern in name.upper() for pattern in ["WEPOWER", "WP"])` after
`name = discovery_info.name or ""`. -/
def wepower_name_match (name : Option String) : Bool :=
  ["WEPOWER", "WP"].any (fun pat => str_contains (str_upper (name.getD "")) pat)

/-- `WePowerIoTBluetoothProcessorCoordinator._is_wepower_device`: a
manufacturer entry with id `BLE_COMPANY_ID` and at least 20 data bytes,
or the name heuristic. -/
def coordinator_is_wepower_device (info : BluetoothServiceInfo) : Bool :=
  if info.manufacturer_data.any
      (fun e => e.1 == BLE_COMPANY_ID && decide (20 ≤ e.2.length)) then true
  else if wepower_name_match info.name then true
  else false

/-- `WePowerIoTBluetoothConfigFlow._is_wepower_device`: identical except
the data-length threshold is 18. -/
def configflow_is_wepower_device (info : BluetoothServiceInfo) : Bool :=
  if info.manufacturer_data.any
      (fun e => e.1 == BLE_COMPANY_ID && decide (18 ≤ e.2.length)) then true
  else if wepower_name_match info.name then true
  else false

/-- Result of one notifier step in `device_management.py`: the dedup set
`self._created_entities` after the step and whether the step dispatched
`SIGNAL_DEVICE_ADDED`. -/
structure NotifierStep where
  created_after : List String
  emitted_added : Bool
  deriving Repr, DecidableEq

/-- `WePowerIoTDeviceManager._async_notify_device_update`: dispatches the
update signal always, and dispatches `SIGNAL_DEVICE_ADDED` only when the
message carries a truthy `device_id` that is not yet in
`self._created_entities`, adding it to the set in that case.  A missing
`device_id` (`None`) and the empty string are both falsy in Python and
are modelled by `""`. -/
def notify_device_update (created : List String) (device_id : String) : NotifierStep :=
  if device_id ≠ "" ∧ device_id ∉ created then
    { created_after := device_id :: created, emitted_added := true }
  else
    { created_after := created, emitted_added := false }

/-- `WePowerIoTDeviceManager.add_device` →
`_async_notify_device_added`: dispatches `SIGNAL_DEVICE_ADDED`
unconditionally and never reads or writes `self._created_entities`. -/
def add_device_notify (created : List String) (_device_id : String) : NotifierStep :=
  { created_after := created, emitted_added := true }

/-- Runs a sequence of `_async_notify_device_update` calls (one
`device_id` per message) from a given dedup set; returns the final set
and the list of ids for which `SIGNAL_DEVICE_ADDED` was dispatched. -/
def run_updates (created : List String) : List String → List String × List String
  | [] => (created, [])
  | id :: rest =>
    let step := notify_device_update created id
    let tail := run_updates step.created_after rest
    (tail.1, (if step.emitted_added then [id] else []) ++ tail.2)

/-- `WePowerIoTDeviceManager.subscribe_to_device_updates`: appends the
callback to the per-device list (`self._subscribers`, a dict of lists,
modelled as a total map with default `[]`). -/
def subscribe_to_device_updates (subs : String → List Nat)
    (device_id : String) (cb : Nat) : String → List Nat :=
  fun k => if k = device_id then subs k ++ [cb] else subs k

/-- The closure returned by `subscribe_to_device_updates`:
`self._subscribers[device_id].remove(callback)` removes the FIRST
occurrence of the callback and raises `ValueError` when the callback is
absent. -/
def unsubscribe_device (subs : String → List Nat)
    (device_id : String) (cb : Nat) : Except PyError (String → List Nat) :=
  if cb ∈ subs device_id then
    .ok (fun k => if k = device_id then (subs k).erase cb else subs k)
  else .error .valueError

/-- `WePowerIoTDeviceManager.subscribe_to_updates`: the general topic is
the fixed key `"general"` in the same dict. -/
def subscribe_to_updates (subs : String → List Nat) (cb : Nat) : String → List Nat :=
  subscribe_to_device_updates subs "general" cb

/-- A stand-in block cipher used to instantiate the `aesDecrypt`
parameter in concrete evaluations (the identity on the data block). -/
def aesId : List Nat → List Nat → List Nat := fun _key block => block

/-- The inner-block decode path exercised by `parse_wepower_packet`
(lines 175-178), with the flags byte supplied explicitly: slice the
16-byte block with `WePowerEncryptedData`, run `decrypt_payload`, then
`parse_sensor_data`. -/
def decode_block (aesDecrypt : List Nat → List Nat → List Nat)
    (flags_byte : Nat) (data : List Nat) (key : List Nat) : Option SensorData :=
  match mkWePowerEncryptedData data with
  | .error _ => none
  | .ok ed =>
    (decrypt_payload aesDecrypt (some (mkWePowerPacketFlags flags_byte)) ed key).map
      parse_sensor_data

/-- The decrypted dict of the worked "leak, detected" example: sensor-type
bytes whose dispatch value is 4 and payload `01 00 00 01 00 00 00 00`. -/
def leakExampleDict : DecryptedDict :=
  { src_id := [0, 0, 0], nwk_id := [0, 0], fw_version := 7
  , sensor_type := [0, 4], payload := [1, 0, 0, 1, 0, 0, 0, 0]
  , event_counter_lsb := 0, payload_length := 0
  , encrypt_status := 1, power_status := 0 }

/-- A concrete 16-byte inner structure (all-zero block) used to
instantiate theorems about `decrypt_payload`. -/
def edZeros : WePowerEncryptedData :=
  { data_bytes := List.replicate 16 0
  , src_id := List.replicate 3 0
  , nwk_id := List.replicate 2 0
  , fw_version := 0
  , sensor_type := List.replicate 2 0
  , payload := List.replicate 8 0 }

/-! ## Helper lemmas -/

/-- Every successfully constructed `WePowerPacket` has `flags = None`. -/
theorem mkWePowerPacket_flags_eq_none {raw : List Nat} {p : WePowerPacket}
    (h : mkWePowerPacket raw = .ok p) : p.flags = none := by
  unfold mkWePowerPacket at h
  split at h
  · simp at h
  · split at h
    · simp at h
    · injection h with h
      subst h
      rfl

/-- `parse_wepower_packet` returns `None` on every input: the result
construction dereferences `packet.flags`, which `__init__` pinned to
`None`. -/
theorem parse_wepower_packet_eq_none (aesDecrypt : List Nat → List Nat → List Nat)
    (data : List Nat) (key : Option (List Nat)) :
    parse_wepower_packet aesDecrypt data key = none := by
  unfold parse_wepower_packet
  cases h : mkWePowerPacket data with
  | error e => rfl
  | ok p =>
    have hf := mkWePowerPacket_flags_eq_none h
    simp only [hf]
    split <;> rfl

/-- `_parse_wepower_manufacturer_data` returns the empty dict on every
input. -/
theorem mfr_parse_eq_empty (aesDecrypt : List Nat → List Nat → List Nat)
    (data : List Nat) (key : Option (List Nat)) :
    parse_wepower_manufacturer_data aesDecrypt data key = .empty := by
  unfold parse_wepower_manufacturer_data
  split
  · rfl
  · simp [parse_wepower_packet_eq_none]

/-- `_parse_advertisement_data` always produces the base dict: the merge
loop contributes nothing because the manufacturer-data parse always
returns the empty dict. -/
theorem parse_advertisement_data_eq (aesDecrypt : List Nat → List Nat → List Nat)
    (now : Nat) (entries : List (Nat × List Nat)) (key : Option (List Nat)) :
    parse_advertisement_data aesDecrypt now entries key =
      { timestamp := now, device_type := "unknown", sensor_data := none } := by
  unfold parse_advertisement_data
  dsimp only
  rw [List.foldl_fixed' (fun e => by
    by_cases hc : e.1 == BLE_COMPANY_ID <;> simp [hc, mfr_parse_eq_empty])]

/-! ## Claim theorems -/

/-- C1: for every byte string given as manufacturer data and every
(possibly absent) decryption key, `parse_wepower_packet` returns `None`:
`WePowerPacket.__init__` always sets `flags` to `None` and the result
construction dereferences `packet.flags.encrypt_status`, so the raised
`AttributeError` is caught by the blanket handler and converted to
`None`; the coordinator's manufacturer-data parse therefore never
produces a parsed packet, decrypted data or sensor telemetry either. -/
theorem C1_parse_pipeline_always_none :
    ∀ (aesDecrypt : List Nat → List Nat → List Nat) (manufacturer_data : List Nat)
      (decryption_key : Option (List Nat)),
      parse_wepower_packet aesDecrypt manufacturer_data decryption_key = none ∧
      parse_wepower_manufacturer_data aesDecrypt manufacturer_data decryption_key =
        .empty :=
  fun aesDecrypt d k =>
    ⟨parse_wepower_packet_eq_none aesDecrypt d k, mfr_parse_eq_empty aesDecrypt d k⟩

/-- C2: the CRC is never recomputed or compared anywhere on the
advertisement path.  `validate_crc` returns `True` unconditionally, and
for the 18-byte frame of 17 zero bytes followed by the (wrong) trailing
byte `0xFF` — whose correct CRC-8 over `flags ‖ payload` is `0x00` — the
coordinator's parse result is identical to the result for the frame with
the correct trailing byte, so a mismatch is not a hard reject. -/
theorem C2_crc_mismatch_not_rejected :
    (∀ p : WePowerPacket, validate_crc p = true) ∧
    calculate_crc8 (List.replicate 17 0) = 0 ∧
    (List.replicate 17 0 ++ [0xFF]).getD 17 0 = 0xFF ∧
    parse_wepower_manufacturer_data aesId (List.replicate 17 0 ++ [0xFF])
        (some (List.replicate 16 0)) =
      parse_wepower_manufacturer_data aesId (List.replicate 17 0 ++ [0x00])
        (some (List.replicate 16 0)) := by
  refine ⟨fun _ => rfl, ?_, by decide, ?_⟩
  · set_option maxRecDepth 20000 in decide
  · rw [mfr_parse_eq_empty, mfr_parse_eq_empty]

/-- C3 counterexample: the scheduled check does not compare elapsed time
against the interval.  With a record observed at time 0 and the poll
firing at time 1000 (elapsed 1000 > 60), availability stays `true`; with
no record stored and zero elapsed time the poll sets availability
`false`. -/
theorem C3_poll_ignores_elapsed_time :
    (async_schedule_poll
        { data := some { timestamp := 0, device_type := "unknown", sensor_data := none }
        , last_update_success := true } 1000).last_update_success = true ∧
    FALLBACK_POLL_INTERVAL < 1000 - 0 ∧
    (async_schedule_poll { data := none, last_update_success := true } 0).last_update_success
      = false := by
  decide

/-- C3 amended: every successfully decoded advertisement stores the
freshly parsed record (whose `timestamp` is the observation time) and
sets availability `true`; the recurring check ignores elapsed time and
sets availability `false` exactly when no record is stored, leaving the
stored record unchanged; additionally the event-handler's exception path
and shutdown set availability `false` (shutdown also clears the
record). -/
theorem C3_amended_availability :
    (∀ st parsed, async_handle_bluetooth_event st (.ok parsed) =
        { data := some parsed, last_update_success := true }) ∧
    (∀ st e, async_handle_bluetooth_event st (.error e) =
        { data := st.data, last_update_success := false }) ∧
    (∀ (aesDecrypt : List Nat → List Nat → List Nat) now entries key,
        (parse_advertisement_data aesDecrypt now entries key).timestamp = now) ∧
    (∀ st now, (async_schedule_poll st now).data = st.data) ∧
    (∀ st now, ((async_schedule_poll st now).last_update_success = false ↔ st.data = none)) ∧
    (∀ st, async_shutdown st = { data := none, last_update_success := false }) := by
  refine ⟨fun st parsed => rfl, fun st e => rfl, ?_, ?_, ?_, fun st => rfl⟩
  · intro aesDecrypt now entries key
    rw [parse_advertisement_data_eq]
  · intro st now
    unfold async_schedule_poll
    split <;> rfl
  · intro st now
    unfold async_schedule_poll
    cases h : st.data <;> simp [h]

/-- C5 counterexample: a 20-byte input (neither 16 nor 18 bytes long)
passes the coordinator's pre-parse length gate, and a 17-byte input gets
past the packet parser's own too-short check, failing only later inside
the inner-structure constructor and classified as a wrong-size error
rather than a too-short one. -/
theorem C5_non_conforming_length_passes_gate :
    manufacturer_length_gate (List.replicate 20 0) = false ∧
    (List.replicate 20 0).length ≠ 16 ∧
    (List.replicate 20 0).length ≠ 18 ∧
    mkWePowerPacket (List.replicate 17 0) = .error .wrongSize := by
  decide

/-- C5 amended: the packet parser rejects inputs shorter than 16 bytes as
too short, and the coordinator's length gate rejects inputs shorter than
18 bytes before further parsing; longer non-16-byte inputs pass those
gates and are rejected during inner-structure construction with a
wrong-size error; in every case the failure is a typed result
(`None`/empty dict) and no exception escapes. -/
theorem C5_amended_length_handling :
    ∀ (aesDecrypt : List Nat → List Nat → List Nat) (data : List Nat)
      (key : Option (List Nat)),
      (data.length < 16 → mkWePowerPacket data = .error .tooShort) ∧
      (manufacturer_length_gate data = true ↔ data.length < 18) ∧
      (16 < data.length → mkWePowerPacket data = .error .wrongSize) ∧
      (data.length < 18 → parse_wepower_manufacturer_data aesDecrypt data key = .empty) ∧
      parse_wepower_packet aesDecrypt data key = none := by
  intro aesDecrypt data key
  refine ⟨?_, ?_, ?_, fun _ => mfr_parse_eq_empty aesDecrypt data key,
    parse_wepower_packet_eq_none aesDecrypt data key⟩
  · intro h
    unfold mkWePowerPacket PACKET_LENGTH
    rw [if_pos h]
  · simp [manufacturer_length_gate]
  · intro h
    unfold mkWePowerPacket PACKET_LENGTH
    rw [if_neg (by omega)]
    unfold mkWePowerEncryptedData ENCRYPTED_DATA_SIZE
    rw [if_pos (by omega : data.length ≠ 16)]

/-- Witness for the amended C5 statement: a 10-byte input is rejected as
too short, a 17-byte input is rejected as wrong-size, and the gate test
agrees with the 18-byte bound on the 10-byte input. -/
theorem C5_amended_length_handling_witness :
    mkWePowerPacket (List.replicate 10 0) = .error .tooShort ∧
    mkWePowerPacket (List.replicate 17 0) = .error .wrongSize ∧
    (manufacturer_length_gate (List.replicate 10 0) = true ↔
      (List.replicate 10 0).length < 18) :=
  ⟨(C5_amended_length_handling aesId (List.replicate 10 0) none).1 (by decide),
   (C5_amended_length_handling aesId (List.replicate 17 0) none).2.2.1 (by decide),
   (C5_amended_length_handling aesId (List.replicate 10 0) none).2.1⟩

/-- The `sensor_type` field of the parsed sensor data is always the
big-endian value of the dict's sensor-type bytes, on every branch of
`parse_sensor_data`. -/
theorem parse_sensor_data_sensor_type (dd : DecryptedDict) :
    (parse_sensor_data dd).sensor_type = beBytesToNat dd.sensor_type := by
  unfold parse_sensor_data
  dsimp only
  split
  · split <;> rfl
  · rfl

/-- C4 counterexample: a 16-byte block whose bytes 6 and 7 are `0x04, 0x00`
does NOT dispatch to the Leak variant: the decoder recovers the type code
as `int(bytes.hex(), 16)`, the big-endian value 1024, so no leak fields
are produced and the device-type table yields `"unknown"`; the
little-endian reading of those bytes would have been 4. -/
theorem C4_bytes_04_00_not_leak :
    decode_block aesId 1 [0, 0, 0, 0, 0, 0, 4, 0, 1, 0, 0, 1, 0, 0, 0, 0] [] =
      some { sensor_type := 1024, event_counter_lsb := 0, payload_length := 0
           , encrypt_status := 1, power_status := 0
           , event_counter := none, sensor_event := none, leak_detected := none } ∧
    device_type_of 1024 = "unknown" ∧
    leBytesToNat [4, 0] = 4 := by
  decide

/-- C4 amended: for every 16-byte cleartext block the schema decoder
slices `sourceId` from bytes [0:3], `networkId` from [3:5],
`firmwareVersion` from byte 5 and `payload` from bytes [8:16] as claimed,
but the dispatch value is the BIG-endian unsigned 16-bit integer of bytes
[6:8] (the code round-trips the slice through a hex string and re-parses
it most-significant-byte-first); the fixed device-type table maps
1→Temperature, 2→Humidity, 3→Pressure, 4→Leak, 5→Vibration, 6–9→Switch
variants and anything else→Unknown; in particular a block whose bytes 6
and 7 are `0x00, 0x04` dispatches to the Leak variant. -/
theorem C4_amended_schema_big_endian :
    ∀ (aesDecrypt : List Nat → List Nat → List Nat) (key : List Nat)
      (b0 b1 b2 b3 b4 b5 b6 b7 b8 b9 b10 b11 b12 b13 b14 b15 : Nat),
      mkWePowerEncryptedData
          [b0, b1, b2, b3, b4, b5, b6, b7, b8, b9, b10, b11, b12, b13, b14, b15] =
        .ok { data_bytes := [b0, b1, b2, b3, b4, b5, b6, b7, b8, b9, b10, b11, b12, b13, b14, b15]
            , src_id := [b0, b1, b2], nwk_id := [b3, b4], fw_version := b5
            , sensor_type := [b6, b7]
            , payload := [b8, b9, b10, b11, b12, b13, b14, b15] } ∧
      (∃ sd, decode_block aesDecrypt 1
            [b0, b1, b2, b3, b4, b5, b6, b7, b8, b9, b10, b11, b12, b13, b14, b15] key =
          some sd ∧
        sd.sensor_type = 256 * b6 + b7 ∧
        (b6 = 0 → b7 = 4 →
          sd.event_counter = some (b8 + 256 * b9 + 65536 * b10) ∧
          sd.sensor_event = some b11 ∧
          sd.leak_detected = some (b11 == 1))) ∧
      (device_type_of 1 = "temperature_sensor" ∧ device_type_of 2 = "humidity_sensor" ∧
       device_type_of 3 = "pressure_sensor" ∧ device_type_of 4 = "leak_sensor" ∧
       device_type_of 5 = "vibration_sensor" ∧ device_type_of 6 = "on_off_switch" ∧
       device_type_of 7 = "light_switch" ∧ device_type_of 8 = "door_switch" ∧
       device_type_of 9 = "toggle_switch") ∧
      (∀ n : Nat, n = 0 ∨ 10 ≤ n → device_type_of n = "unknown") := by
  intro aesDecrypt key b0 b1 b2 b3 b4 b5 b6 b7 b8 b9 b10 b11 b12 b13 b14 b15
  refine ⟨by simp [mkWePowerEncryptedData, ENCRYPTED_DATA_SIZE], ?_, by decide, ?_⟩
  · have hd : decode_block aesDecrypt 1
        [b0, b1, b2, b3, b4, b5, b6, b7, b8, b9, b10, b11, b12, b13, b14, b15] key =
        some (parse_sensor_data
          { src_id := [b0, b1, b2], nwk_id := [b3, b4], fw_version := b5
          , sensor_type := [b6, b7]
          , payload := [b8, b9, b10, b11, b12, b13, b14, b15]
          , event_counter_lsb := 0, payload_length := 0
          , encrypt_status := 1, power_status := 0 }) := rfl
    refine ⟨_, hd, ?_, ?_⟩
    · rw [parse_sensor_data_sensor_type]
      simp only [beBytesToNat, List.foldl]
      ring
    · intro h6 h7
      subst h6
      subst h7
      simp [parse_sensor_data, beBytesToNat, leBytesToNat]
      ring
  · intro n hn
    unfold device_type_of
    rcases hn with hn | hn
    · subst hn
      decide
    · split_ifs <;> first | rfl | omega

/-- C6: for a decoded block with dispatch value 4 (Leak) and payload of at
least 4 bytes, the decoder yields `event_counter` equal to the 24-bit
little-endian value of payload bytes [0:3] (zero-extended),
`sensor_event` equal to payload byte 3, and `leak_detected` true exactly
when that byte equals 1. -/
theorem C6_leak_decoder :
    ∀ (dd : DecryptedDict), beBytesToNat dd.sensor_type = 4 →
      4 ≤ dd.payload.length →
      (parse_sensor_data dd).event_counter =
          some (dd.payload.getD 0 0 + 256 * dd.payload.getD 1 0 +
            65536 * dd.payload.getD 2 0) ∧
      (parse_sensor_data dd).sensor_event = some (dd.payload.getD 3 0) ∧
      ((parse_sensor_data dd).leak_detected = some true ↔ dd.payload.getD 3 0 = 1) := by
  intro dd h4 hlen
  obtain ⟨si, ni, fw, stb, pl, ecl, pll, es, ps⟩ := dd
  dsimp only at h4 hlen ⊢
  rcases pl with _ | ⟨p0, pl⟩
  · simp at hlen
  rcases pl with _ | ⟨p1, pl⟩
  · simp at hlen
  rcases pl with _ | ⟨p2, pl⟩
  · simp at hlen
  rcases pl with _ | ⟨p3, pl⟩
  · simp at hlen
  unfold parse_sensor_data
  simp only [h4]
  simp [leBytesToNat]
  ring

/-- Witness for C6 at the spec's worked example: sensor type 4 with
payload `01 00 00 01 00 00 00 00` yields `event_counter = 1`,
`sensor_event = 1` and `leak_detected = true`. -/
theorem C6_leak_decoder_witness :
    (parse_sensor_data leakExampleDict).event_counter = some 1 ∧
    (parse_sensor_data leakExampleDict).sensor_event = some 1 ∧
    (parse_sensor_data leakExampleDict).leak_detected = some true := by
  have h := C6_leak_decoder leakExampleDict (by decide) (by decide)
  refine ⟨by simpa using h.1, by simpa using h.2.1, h.2.2.mpr (by decide)⟩

/-- Witness for the amended C4 statement at the block
`09 08 07 06 05 03 00 04 01 00 00 01 00 00 00 00`: bytes 6 and 7 are
`0x00, 0x04`, the dispatch value is 4 and the leak fields are
produced. -/
theorem C4_amended_schema_big_endian_witness :
    (∃ sd, decode_block aesId 1 [9, 8, 7, 6, 5, 3, 0, 4, 1, 0, 0, 1, 0, 0, 0, 0] [] =
        some sd ∧
      sd.sensor_type = 256 * 0 + 4 ∧
      sd.event_counter = some (1 + 256 * 0 + 65536 * 0) ∧
      sd.sensor_event = some 1 ∧
      sd.leak_detected = some ((1 : Nat) == 1)) ∧
    device_type_of 1024 = "unknown" := by
  have h := C4_amended_schema_big_endian aesId [] 9 8 7 6 5 3 0 4 1 0 0 1 0 0 0 0
  obtain ⟨sd, hdec, hst, hleak⟩ := h.2.1
  obtain ⟨h1, h2, h3⟩ := hleak rfl rfl
  exact ⟨⟨sd, hdec, hst, h1, h2, h3⟩, h.2.2.2 1024 (Or.inr (by omega))⟩

/-- C7 counterexample: the creation-side signal is emitted more than once
for the same identity.  `add_device` dispatches `SIGNAL_DEVICE_ADDED`
unconditionally without consulting or updating the dedup set, so two
manual adds of device `"d"` emit the creation signal twice, and a
subsequent update message for `"d"` emits it a third time because the
adds never recorded the identity. -/
theorem C7_add_device_reemits_creation_signal :
    (add_device_notify [] "d").emitted_added = true ∧
    (add_device_notify (add_device_notify [] "d").created_after "d").emitted_added = true ∧
    (notify_device_update (add_device_notify [] "d").created_after "d").emitted_added
      = true := by
  decide

/-- The update-path notifier never emits a creation signal for an
identity that is already in the dedup set, over any sequence of update
messages. -/
theorem run_updates_count_eq_zero :
    ∀ (events created : List String) (id : String),
      id ∈ created → List.count id (run_updates created events).2 = 0 := by
  intro events
  induction events with
  | nil => intro created id h; simp [run_updates]
  | cons e rest ih =>
    intro created id h
    unfold run_updates
    dsimp only
    by_cases hc : e ≠ "" ∧ e ∉ created
    · have hstep : notify_device_update created e =
          { created_after := e :: created, emitted_added := true } := by
        unfold notify_device_update
        rw [if_pos hc]
      have hne : e ≠ id := fun heq => hc.2 (heq ▸ h)
      simp [hstep, List.count_cons, hne, ih (e :: created) id (List.mem_cons_of_mem _ h)]
    · have hstep : notify_device_update created e =
          { created_after := created, emitted_added := false } := by
        unfold notify_device_update
        rw [if_neg hc]
      simp [hstep, ih created id h]

/-- Over any sequence of update messages the update-path notifier emits
the creation signal at most once per identity. -/
theorem run_updates_count_le_one :
    ∀ (events created : List String) (id : String),
      List.count id (run_updates created events).2 ≤ 1 := by
  intro events
  induction events with
  | nil => intro created id; simp [run_updates]
  | cons e rest ih =>
    intro created id
    unfold run_updates
    dsimp only
    by_cases hc : e ≠ "" ∧ e ∉ created
    · have hstep : notify_device_update created e =
          { created_after := e :: created, emitted_added := true } := by
        unfold notify_device_update
        rw [if_pos hc]
      by_cases hie : id = e
      · subst hie
        have h0 := run_updates_count_eq_zero rest (id :: created) id (List.mem_cons_self _ _)
        simp [hstep, List.count_cons, h0]
      · have hle := ih (e :: created) id
        have hne : e ≠ id := fun heq => hie heq.symm
        simp [hstep, List.count_cons, hne, hle]
    · have hstep : notify_device_update created e =
          { created_after := created, emitted_added := false } := by
        unfold notify_device_update
        rw [if_neg hc]
      simp [hstep, ih created id]

/-- C7 amended: the update-path notifier (`_async_notify_device_update`)
emits the creation signal at most once per identity: an identity already
in the dedup set never re-triggers it (and the set is left unchanged),
and over any sequence of update messages at most one creation signal per
identity is emitted; the manual `add_device` path, however, dispatches
the creation signal unconditionally on every call and does not consult
or update the dedup set. -/
theorem C7_amended_creation_dedup :
    (∀ created id, id ∈ created →
        notify_device_update created id =
          { created_after := created, emitted_added := false }) ∧
    (∀ created events id, List.count id (run_updates created events).2 ≤ 1) ∧
    (∀ created events id, id ∈ created →
        List.count id (run_updates created events).2 = 0) ∧
    (∀ created id, (add_device_notify created id).emitted_added = true) := by
  refine ⟨?_, fun created events id => run_updates_count_le_one events created id,
    fun created events id h => run_updates_count_eq_zero events created id h,
    fun created id => rfl⟩
  intro created id h
  unfold notify_device_update
  rw [if_neg (fun hcon => hcon.2 h)]

/-- Witness for the amended C7 statement: with `"d"` already in the dedup
set, an update for `"d"` emits nothing and the set is unchanged, and the
update sequence `["d", "e"]` emits no creation signal for `"d"`. -/
theorem C7_amended_creation_dedup_witness :
    notify_device_update ["d"] "d" = { created_after := ["d"], emitted_added := false } ∧
    List.count "d" (run_updates ["d"] ["d", "e"]).2 = 0 :=
  ⟨C7_amended_creation_dedup.1 ["d"] "d" (List.mem_cons_self _ _),
   C7_amended_creation_dedup.2.2.1 ["d"] ["d", "e"] "d" (List.mem_cons_self _ _)⟩

/-- C8: subscribing appends one callback reference, and the unsubscribe
closure returned by a subscription removes exactly one reference of that
callback (the first occurrence, via `list.remove`): if the callback is
registered n ≥ 1 times, exactly n−1 registrations remain, other
callbacks' registration counts for that device are untouched, and every
other key — including the `"general"` topic when it differs from the
device id — keeps its subscriber list unchanged. -/
theorem C8_unsubscribe_removes_exactly_one :
    ∀ (subs : String → List Nat) (device_id : String) (cb : Nat),
      ((subscribe_to_device_updates subs device_id cb) device_id).count cb =
        (subs device_id).count cb + 1 ∧
      (cb ∈ subs device_id →
        ∃ f, unsubscribe_device subs device_id cb = .ok f ∧
          (f device_id).count cb = (subs device_id).count cb - 1 ∧
          (∀ cb2, cb2 ≠ cb → (f device_id).count cb2 = (subs device_id).count cb2) ∧
          (∀ k, k ≠ device_id → f k = subs k)) := by
  intro subs device_id cb
  constructor
  · simp [subscribe_to_device_updates]
  · intro hmem
    refine ⟨fun k => if k = device_id then (subs k).erase cb else subs k, ?_, ?_, ?_, ?_⟩
    · unfold unsubscribe_device
      rw [if_pos hmem]
    · simp only [if_pos rfl]
      exact List.count_erase_self cb (subs device_id)
    · intro cb2 h2
      simp only [if_pos rfl]
      exact List.count_erase_of_ne h2 (subs device_id)
    · intro k hk
      simp [hk]

/-- Witness for C8: with `"dev"` holding the list `[7, 7, 9]`, subscribing
`7` gives three copies, and unsubscribing `7` leaves one copy of `7`,
keeps the count of `9`, and leaves the `"general"` list alone. -/
theorem C8_unsubscribe_removes_exactly_one_witness :
    ((subscribe_to_device_updates (fun k => if k = "dev" then [7, 7, 9] else [5])
        "dev" 7) "dev").count 7 =
      ((fun k : String => if k = "dev" then [7, 7, 9] else [5]) "dev").count 7 + 1 ∧
    (∃ f, unsubscribe_device (fun k => if k = "dev" then [7, 7, 9] else [5]) "dev" 7
        = .ok f ∧
      (f "dev").count 7 =
        ((fun k : String => if k = "dev" then [7, 7, 9] else [5]) "dev").count 7 - 1 ∧
      (∀ cb2, cb2 ≠ 7 → (f "dev").count cb2 =
        ((fun k : String => if k = "dev" then [7, 7, 9] else [5]) "dev").count cb2) ∧
      (∀ k, k ≠ "dev" →
        f k = (fun k : String => if k = "dev" then [7, 7, 9] else [5]) k)) :=
  ⟨(C8_unsubscribe_removes_exactly_one
      (fun k => if k = "dev" then [7, 7, 9] else [5]) "dev" 7).1,
   (C8_unsubscribe_removes_exactly_one
      (fun k => if k = "dev" then [7, 7, 9] else [5]) "dev" 7).2 (by decide)⟩

/-- C9: `decrypt_payload` implements the polarity in which flag value 1
means already-plaintext.  For any flags value and any 16-byte stored
block: when `encrypt_status = 1` the stored bytes are re-parsed
unchanged; when `encrypt_status = 0` the single-block cipher (the
library's AES-128-ECB decryption, abstracted as the `aesDecrypt`
argument) is applied to the stored bytes with the supplied key before
parsing.  The operation is a pure function of its inputs (determinism and
statelessness hold by construction of the embedding). -/
theorem C9_decrypt_payload_polarity :
    ∀ (aesDecrypt : List Nat → List Nat → List Nat) (f : WePowerPacketFlags)
      (ed : WePowerEncryptedData) (key : List Nat),
      ed.data_bytes.length = 16 →
      (f.encrypt_status = 1 →
        decrypt_payload aesDecrypt (some f) ed key = some
          { src_id := ed.data_bytes.take 3
          , nwk_id := (ed.data_bytes.drop 3).take 2
          , fw_version := ed.data_bytes.getD 5 0
          , sensor_type := (ed.data_bytes.drop 6).take 2
          , payload := (ed.data_bytes.drop 8).take 8
          , event_counter_lsb := f.event_counter_lsb
          , payload_length := f.payload_length
          , encrypt_status := f.encrypt_status
          , power_status := f.self_external_power }) ∧
      (f.encrypt_status = 0 → (aesDecrypt key ed.data_bytes).length = 16 →
        decrypt_payload aesDecrypt (some f) ed key = some
          { src_id := (aesDecrypt key ed.data_bytes).take 3
          , nwk_id := ((aesDecrypt key ed.data_bytes).drop 3).take 2
          , fw_version := (aesDecrypt key ed.data_bytes).getD 5 0
          , sensor_type := ((aesDecrypt key ed.data_bytes).drop 6).take 2
          , payload := ((aesDecrypt key ed.data_bytes).drop 8).take 8
          , event_counter_lsb := f.event_counter_lsb
          , payload_length := f.payload_length
          , encrypt_status := f.encrypt_status
          , power_status := f.self_external_power }) := by
  intro aesDecrypt f ed key hlen
  constructor
  · intro h1
    unfold decrypt_payload
    dsimp only
    rw [if_pos h1]
    unfold mkWePowerEncryptedData ENCRYPTED_DATA_SIZE
    rw [if_neg (by omega)]
  · intro h0 haes
    unfold decrypt_payload
    dsimp only
    rw [if_neg (by omega)]
    unfold mkWePowerEncryptedData ENCRYPTED_DATA_SIZE
    rw [if_neg (by omega)]

/-- Witness for C9 on the all-zero block: with flags byte 1 the block is
passed through unchanged; with flags byte 0 the (stand-in) cipher is
applied with the supplied key before parsing. -/
theorem C9_decrypt_payload_polarity_witness :
    decrypt_payload aesId (some (mkWePowerPacketFlags 1)) edZeros [] = some
      { src_id := edZeros.data_bytes.take 3
      , nwk_id := (edZeros.data_bytes.drop 3).take 2
      , fw_version := edZeros.data_bytes.getD 5 0
      , sensor_type := (edZeros.data_bytes.drop 6).take 2
      , payload := (edZeros.data_bytes.drop 8).take 8
      , event_counter_lsb := (mkWePowerPacketFlags 1).event_counter_lsb
      , payload_length := (mkWePowerPacketFlags 1).payload_length
      , encrypt_status := (mkWePowerPacketFlags 1).encrypt_status
      , power_status := (mkWePowerPacketFlags 1).self_external_power } ∧
    decrypt_payload aesId (some (mkWePowerPacketFlags 0)) edZeros [] = some
      { src_id := (aesId [] edZeros.data_bytes).take 3
      , nwk_id := ((aesId [] edZeros.data_bytes).drop 3).take 2
      , fw_version := (aesId [] edZeros.data_bytes).getD 5 0
      , sensor_type := ((aesId [] edZeros.data_bytes).drop 6).take 2
      , payload := ((aesId [] edZeros.data_bytes).drop 8).take 8
      , event_counter_lsb := (mkWePowerPacketFlags 0).event_counter_lsb
      , payload_length := (mkWePowerPacketFlags 0).payload_length
      , encrypt_status := (mkWePowerPacketFlags 0).encrypt_status
      , power_status := (mkWePowerPacketFlags 0).self_external_power } :=
  ⟨(C9_decrypt_payload_polarity aesId (mkWePowerPacketFlags 1) edZeros []
      (by decide)).1 (by decide),
   (C9_decrypt_payload_polarity aesId (mkWePowerPacketFlags 0) edZeros []
      (by decide)).2 (by decide) (by decide)⟩

/-- The coordinator's discovery check equals the disjunction of its two
tests (the source's early-return loop followed by the name fallback). -/
theorem coordinator_check_eq_or (info : BluetoothServiceInfo) :
    coordinator_is_wepower_device info =
      (info.manufacturer_data.any
          (fun e => e.1 == BLE_COMPANY_ID && decide (20 ≤ e.2.length)) ||
        wepower_name_match info.name) := by
  unfold coordinator_is_wepower_device
  cases h1 : info.manufacturer_data.any
      (fun e => e.1 == BLE_COMPANY_ID && decide (20 ≤ e.2.length)) <;>
    cases h2 : wepower_name_match info.name <;> simp [h1, h2]

/-- The config-flow discovery check equals the disjunction of its two
tests. -/
theorem configflow_check_eq_or (info : BluetoothServiceInfo) :
    configflow_is_wepower_device info =
      (info.manufacturer_data.any
          (fun e => e.1 == BLE_COMPANY_ID && decide (18 ≤ e.2.length)) ||
        wepower_name_match info.name) := by
  unfold configflow_is_wepower_device
  cases h1 : info.manufacturer_data.any
      (fun e => e.1 == BLE_COMPANY_ID && decide (18 ≤ e.2.length)) <;>
    cases h2 : wepower_name_match info.name <;> simp [h1, h2]

/-- C10: the coordinator classifies an advertisement as a WePower device
exactly when some manufacturer-data entry has company id 0x5750 with at
least 20 data bytes, or the upper-cased name contains `"WEPOWER"` or
`"WP"`; the config-flow check is identical but with an 18-byte
threshold.  In particular, an advertisement carrying 18 bytes of
company-id-0x5750 data under a non-matching name is rejected by the
coordinator's check yet accepted by the config flow's. -/
theorem C10_discovery_classification :
    (∀ info : BluetoothServiceInfo,
      coordinator_is_wepower_device info = true ↔
        ((∃ e ∈ info.manufacturer_data, e.1 = BLE_COMPANY_ID ∧ 20 ≤ e.2.length) ∨
          str_contains (str_upper (info.name.getD "")) "WEPOWER" = true ∨
          str_contains (str_upper (info.name.getD "")) "WP" = true)) ∧
    (∀ info : BluetoothServiceInfo,
      configflow_is_wepower_device info = true ↔
        ((∃ e ∈ info.manufacturer_data, e.1 = BLE_COMPANY_ID ∧ 18 ≤ e.2.length) ∨
          str_contains (str_upper (info.name.getD "")) "WEPOWER" = true ∨
          str_contains (str_upper (info.name.getD "")) "WP" = true)) ∧
    coordinator_is_wepower_device
      { name := some "DEV", manufacturer_data := [(0x5750, List.replicate 18 0)] }
      = false ∧
    configflow_is_wepower_device
      { name := some "DEV", manufacturer_data := [(0x5750, List.replicate 18 0)] }
      = true := by
  refine ⟨?_, ?_, by decide, by decide⟩
  · intro info
    rw [coordinator_check_eq_or]
    simp [wepower_name_match, List.any_eq_true, Bool.and_eq_true, beq_iff_eq,
      decide_eq_true_eq]
  · intro info
    rw [configflow_check_eq_or]
    simp [wepower_name_match, List.any_eq_true, Bool.and_eq_true, beq_iff_eq,
      decide_eq_true_eq]
